import Mathlib

/-!
Verification development for the social-media scheduling pipeline.

Each definition is a shallow embedding of a function of the repository
(`app/database/crud.py`, `app/services/cleanup_service.py`,
`app/services/facebook_graph.py`, `app/services/publisher_service.py`,
`app/services/google_drive.py`, `app/routes/schedular.py`,
`app/routes/instagram_webhook.py`).  External effects (SQL, HTTP, Drive,
the JPEG encoder) are modelled as explicit inputs; timestamps are integer
seconds; Python float arithmetic in the image normalizer is idealized as
exact rational arithmetic (the spec's bounds are stated "up to rounding").
-/

namespace SocialMedia

/-! ### Scheduled post store (`app/database/crud.py`)

A row of the `scheduled_posts` table.  Only the columns read by the
trigger/cleanup queries and the status updates are carried
(`id`, `scheduled_time`, `status`); the remaining columns
(`post_type`, `selected_caption`, folder/event ids, `media_paths`,
`created_at`) do not influence row selection or the status transitions
modelled here. -/
structure PostRow where
  id : Nat
  scheduledTime : Int
  status : String
deriving DecidableEq, Repr

/-- The `ORDER BY scheduled_time ASC` ordering. -/
def schedLE (a b : PostRow) : Prop :=
  a.scheduledTime ≤ b.scheduledTime

instance : DecidableRel schedLE := fun a b =>
  inferInstanceAs (Decidable (a.scheduledTime ≤ b.scheduledTime))

instance : IsTotal PostRow schedLE :=
  ⟨fun a b => Int.le_total a.scheduledTime b.scheduledTime⟩

instance : IsTrans PostRow schedLE :=
  ⟨fun _ _ _ h h2 => le_trans h h2⟩

/-- `crud.find_posts_to_trigger`: selects rows with
`scheduled_time >= now - 1 minute AND scheduled_time <= now AND status = 'scheduled'`,
`ORDER BY scheduled_time ASC`.  Time is in seconds, so the
`timedelta(minutes=1)` window is `now - 60`. -/
def find_posts_to_trigger (db : List PostRow) (now : Int) : List PostRow :=
  List.insertionSort schedLE
    (db.filter (fun p =>
      decide (now - 60 ≤ p.scheduledTime) && decide (p.scheduledTime ≤ now) &&
        (p.status == "scheduled")))

/-- `crud.find_posts_for_deletion`: rows with
`scheduled_time < now - delay_hours AND status = 'scheduled'`
(`delay_hours` in seconds here). -/
def find_posts_for_deletion (db : List PostRow) (now : Int) (delaySeconds : Int) :
    List PostRow :=
  db.filter (fun p =>
    decide (p.scheduledTime < now - delaySeconds) && (p.status == "scheduled"))

/-- `crud.update_post_status`: `UPDATE scheduled_posts SET status = %s WHERE id = %s`. -/
def update_post_status (db : List PostRow) (postId : Nat) (newStatus : String) :
    List PostRow :=
  db.map (fun p => if p.id = postId then { p with status := newStatus } else p)

/-- The per-post publishing loop of `cleanup_service.check_and_trigger_posts`,
restricted to its effect on the store: for each selected post, if the Graph
API publish succeeds (`publishOk`), `update_post_status(post.id, 'triggered')`
is executed; on failure the status is left unchanged. -/
def apply_publishes (publishOk : Nat → Bool) : List PostRow → List PostRow → List PostRow
  | [], db => db
  | p :: rest, db =>
    apply_publishes publishOk rest
      (if publishOk p.id then update_post_status db p.id "triggered" else db)

/-- One pass of `cleanup_service.check_and_trigger_posts`: select due posts
via `find_posts_to_trigger`, then apply the publish loop. -/
def check_and_trigger_posts (db : List PostRow) (now : Int) (publishOk : Nat → Bool) :
    List PostRow :=
  apply_publishes publishOk (find_posts_to_trigger db now) db

/-! ### Image normalizer (`cleanup_service.validate_and_prepare_image`)

Python float arithmetic is idealized as exact rational arithmetic; `int(x)`
on a positive value is `⌊x⌋`, and Python `round` is round-half-to-even. -/

/-- Round-half-to-even (Python `round`) on an exact rational. -/
def rhe (x : ℚ) : ℤ :=
  if x - ⌊x⌋ < 1/2 then ⌊x⌋
  else if 1/2 < x - ⌊x⌋ then ⌊x⌋ + 1
  else if ⌊x⌋ % 2 = 0 then ⌊x⌋ else ⌊x⌋ + 1

/-- The aspect-ratio clamp-and-center-crop step of
`validate_and_prepare_image` (source lines 202-214), acting on the
dimensions `(w1, h1)` obtained after the width resize.  `MIN_RATIO = 4/5`,
`MAX_RATIO = 1.91`; a vertical crop keeps the width and sets the height to
`int(round(width / target_ratio))`, a horizontal crop keeps the height and
sets the width to `int(round(height * target_ratio))`. -/
def crop_to_bounds (w1 h1 : ℕ) : ℕ × ℕ :=
  if (w1 : ℚ) / (h1 : ℚ) < 4/5 ∨ 191/100 < (w1 : ℚ) / (h1 : ℚ) then
    if (rhe ((w1 : ℚ) / (max (4/5) (min (191/100) ((w1 : ℚ) / (h1 : ℚ)))))).toNat ≤ h1 then
      (w1, (rhe ((w1 : ℚ) / (max (4/5) (min (191/100) ((w1 : ℚ) / (h1 : ℚ)))))).toNat)
    else
      ((rhe ((h1 : ℚ) * (max (4/5) (min (191/100) ((w1 : ℚ) / (h1 : ℚ)))))).toNat, h1)
  else (w1, h1)

/-- The geometric part of `validate_and_prepare_image` (source lines
177-214): decode gives a `w × h` image; if `w < 320` upscale the width to
`320`, if `w > 1440` downscale to `1440` (height scaled proportionally and
truncated by `int`), then clamp the aspect ratio by center-cropping.
`none` models the paths on which Python raises before producing an image
(`ZeroDivisionError` / PIL failure when a dimension degenerates to 0). -/
def geom_normalize (w h : ℕ) : Option (ℕ × ℕ) :=
  if h = 0 then none
  else if w < 320 then
    if (⌊(320 : ℚ) / ((w : ℚ) / (h : ℚ))⌋).toNat = 0 then none
    else some (crop_to_bounds 320 (⌊(320 : ℚ) / ((w : ℚ) / (h : ℚ))⌋).toNat)
  else if 1440 < w then
    if (⌊(1440 : ℚ) / ((w : ℚ) / (h : ℚ))⌋).toNat = 0 then none
    else some (crop_to_bounds 1440 (⌊(1440 : ℚ) / ((w : ℚ) / (h : ℚ))⌋).toNat)
  else some (crop_to_bounds w h)

/-- The JPEG re-encode loop of `validate_and_prepare_image` (source lines
223-229): starting at quality 95, while the encoded size exceeds 8 MiB and
the quality exceeds 40, replace the quality by `int(quality * 0.85)`.
`size` is the encoder (bytes produced at a given quality); `fuel` bounds
the number of saves — fuel 6 is shown sufficient from quality 95
(`jpeg_loop_fuel_irrelevant`). -/
def reduce_quality (size : ℕ → ℕ) : ℕ → ℕ → ℕ
  | 0, q => q
  | fuel+1, q =>
    if size q ≤ 8 * 1024 * 1024 ∨ q ≤ 40 then q
    else reduce_quality size fuel (q * 85 / 100)

/-- `cleanup_service.validate_and_prepare_image`, composed: the geometric
normalization followed by the quality loop.  `jpegSize dims q` is the
size of the JPEG encoding of the cropped `dims` image at quality `q`.
Returns the output dimensions and final quality (the upload step returns
a URL and does not change the image). -/
def validate_and_prepare_image (w h : ℕ) (jpegSize : ℕ × ℕ → ℕ → ℕ) :
    Option (ℕ × ℕ × ℕ) :=
  match geom_normalize w h with
  | none => none
  | some wh => some (wh.1, wh.2, reduce_quality (jpegSize wh) 6 95)

/-! ### Publish target client (`app/services/facebook_graph.py`)

`requests.post` either raises (network error, timeout) or yields a
response; in `_post` only `resp.json()` is wrapped in try/except, so a
raise from `requests.post` itself propagates.  `jsonId` is `none` when
`resp.json()` raised (the `json` field is then `None`, which is falsy, as
is an empty parsed body), and `some idOpt` when it parsed, with `idOpt`
the optional `"id"` field.  `net k` is the outcome of the k-th HTTP POST
performed by the call. -/
inductive NetResult where
  | raises
  | resp (status : Nat) (jsonId : Option (Option String)) (text : String)
deriving DecidableEq, Repr

/-- `facebook_graph.publish_photo`: create a media container, then publish.
`configured` is whether both `FACEBOOK_PAGE_ACCESS_TOKEN` and
`INSTAGRAM_USER_ID` are set.  `Except.error ()` models an exception
escaping to the caller. -/
def publish_photo (configured : Bool) (net : Nat → NetResult) :
    Except Unit (Bool × String) :=
  match configured with
  | false => Except.ok (false, "Facebook/Instagram credentials not configured")
  | true =>
    match net 0 with
    | NetResult.raises => Except.error ()
    | NetResult.resp s j t =>
      match j with
      | none => Except.ok (false, "Failed to create media container: " ++ t)
      | some idOpt =>
        if s = 200 ∨ s = 201 then
          match idOpt with
          | none => Except.ok (false, "No creation id returned: " ++ t)
          | some _ =>
            match net 1 with
            | NetResult.raises => Except.error ()
            | NetResult.resp s2 _ t2 =>
              if s2 = 200 ∨ s2 = 201 then Except.ok (true, "Published: " ++ t2)
              else Except.ok (false, "Publish failed: " ++ t2)
        else Except.ok (false, "Failed to create media container: " ++ t)

/-- `facebook_graph.publish_video`: create a video container on the video
host, then publish.  Structurally identical to `publish_photo` up to
messages and hosts. -/
def publish_video (configured : Bool) (net : Nat → NetResult) :
    Except Unit (Bool × String) :=
  match configured with
  | false => Except.ok (false, "Facebook/Instagram credentials not configured")
  | true =>
    match net 0 with
    | NetResult.raises => Except.error ()
    | NetResult.resp s j t =>
      match j with
      | none => Except.ok (false, "Failed to create video container: " ++ t)
      | some idOpt =>
        if s = 200 ∨ s = 201 then
          match idOpt with
          | none => Except.ok (false, "No creation id returned for video: " ++ t)
          | some _ =>
            match net 1 with
            | NetResult.raises => Except.error ()
            | NetResult.resp s2 _ t2 =>
              if s2 = 200 ∨ s2 = 201 then Except.ok (true, "Video published: " ++ t2)
              else Except.ok (false, "Video publish failed: " ++ t2)
        else Except.ok (false, "Failed to create video container: " ++ t)

/-- The child-container loop of `publish_carousel`: one POST per image URL;
fails fast on the first bad child.  Returns either the early
`(False, reason)` result (`Sum.inl`), or the child ids with the next call
index (`Sum.inr`). -/
def carousel_children (net : Nat → NetResult) :
    List String → Nat → Except Unit ((Bool × String) ⊕ (List String × Nat))
  | [], k => Except.ok (Sum.inr ([], k))
  | _ :: rest, k =>
    match net k with
    | NetResult.raises => Except.error ()
    | NetResult.resp s j t =>
      match j with
      | none => Except.ok (Sum.inl (false, "Failed creating child media: " ++ t))
      | some idOpt =>
        if s = 200 ∨ s = 201 then
          match idOpt with
          | none => Except.ok (Sum.inl (false, "No child id returned: " ++ t))
          | some cid =>
            match carousel_children net rest (k+1) with
            | Except.error _ => Except.error ()
            | Except.ok (Sum.inl r) => Except.ok (Sum.inl r)
            | Except.ok (Sum.inr (ids, next)) => Except.ok (Sum.inr (cid :: ids, next))
        else Except.ok (Sum.inl (false, "Failed creating child media: " ++ t))

/-- `facebook_graph.publish_carousel`: children, then parent container,
then publish. -/
def publish_carousel (configured : Bool) (net : Nat → NetResult)
    (imageUrls : List String) : Except Unit (Bool × String) :=
  match configured with
  | false => Except.ok (false, "Facebook/Instagram credentials not configured")
  | true =>
    match carousel_children net imageUrls 0 with
    | Except.error _ => Except.error ()
    | Except.ok (Sum.inl r) => Except.ok r
    | Except.ok (Sum.inr (_, k)) =>
      match net k with
      | NetResult.raises => Except.error ()
      | NetResult.resp s j t =>
        match j with
        | none => Except.ok (false, "Failed to create parent carousel container: " ++ t)
        | some idOpt =>
          if s = 200 ∨ s = 201 then
            match idOpt with
            | none => Except.ok (false, "No creation id for carousel: " ++ t)
            | some _ =>
              match net (k+1) with
              | NetResult.raises => Except.error ()
              | NetResult.resp s2 _ t2 =>
                if s2 = 200 ∨ s2 = 201 then Except.ok (true, "Carousel published: " ++ t2)
                else Except.ok (false, "Carousel publish failed: " ++ t2)
          else Except.ok (false, "Failed to create parent carousel container: " ++ t)

/-! ### Drive upload and the scheduling route
(`app/services/google_drive.py`, `app/routes/schedular.py`) -/

/-- The per-media metadata dict built by `upload_files_to_drive` and stored
in `media_paths`. -/
structure MediaMeta where
  requestedPath : String
  uploadedFileId : String
  fileName : String
  mimeType : String
  r2Url : Option String
deriving DecidableEq, Repr

/-- `google_drive.upload_files_to_drive`, at the granularity of the
missing-asset check (source lines 202-215): each selected media reference
either resolves to uploaded metadata (`resolve m = some meta`, abstracting
the HTTP/local read, R2 staging and Drive upload) or resolves to nothing
(`none`, appended to `missing_media`).  If any reference was missing, the
created post folder is deleted and an exception is raised; otherwise the
folder id and the uploaded metadata are returned.  The second component
records whether the partially created folder was deleted. -/
def upload_files_to_drive (selectedMedia : List String)
    (resolve : String → Option MediaMeta) (postFolderId : String) :
    (Except String (String × List MediaMeta)) × Bool :=
  let missing := selectedMedia.filter (fun m => (resolve m).isNone)
  if missing.isEmpty then
    (Except.ok (postFolderId, selectedMedia.filterMap resolve), false)
  else
    (Except.error ("Missing media files: " ++ String.intercalate ", " missing), true)

/-- Python `a or b` for an optional string `a` (both `None` and `""` are
falsy). -/
def pyOrString (a : Option String) (b : String) : String :=
  match a with
  | some v => if v = "" then b else v
  | none => b

/-- Python truthiness of an optional string. -/
def strTruthy : Option String → Bool
  | some v => v != ""
  | none => false

/-- The row inserted by `crud.add_scheduled_post`; `status` takes the
schema default `'scheduled'` (`connection.create_tables`). -/
structure SavedPost where
  postType : String
  caption : String
  scheduledTime : String
  folderId : String
  eventId : String
  mediaPaths : List MediaMeta
  status : String
deriving DecidableEq, Repr

/-- The `ScheduleResponse` returned by the route. -/
structure ScheduleResponse where
  message : String
  folderId : Option String
  eventId : Option String
  webhookSent : Bool
  webhookStatus : String
deriving DecidableEq, Repr

/-- `scheduled_time.replace(':', '-').replace('T', '_')`, used to build the
synthetic fallback folder/event ids.  Both patterns are single characters,
so the two `replace` calls amount to a character map. -/
def timeslug (scheduledTime : String) : String :=
  String.mk (scheduledTime.data.map
    (fun c => if c = ':' then '-' else if c = 'T' then '_' else c))

/-- `schedular.schedule_post`.  The three external steps are inputs:
`driveResult` is the outcome of `upload_files_to_drive` (`Except.error`
when it raised), `calendarResult` of `create_calendar_event`, `dbResult`
of `add_scheduled_post`.  The result is the persisted row (if any)
together with the HTTP response; `Except.error` is the
`HTTPException(500)` path, raised only by a database failure. -/
def schedule_post (postType caption scheduledTime : String)
    (driveResult : Except String (String × List MediaMeta))
    (calendarResult : Except String (Option String))
    (dbResult : Except String Unit) :
    Except String (Option SavedPost × ScheduleResponse) :=
  -- step 1: Drive upload; success requires a truthy folder id and a media list
  let driveData : Bool × Option String × Option (List MediaMeta) :=
    match driveResult with
    | Except.ok (fid, media) =>
      if fid = "" then (false, some fid, some media) else (true, some fid, some media)
    | Except.error _ => (false, none, none)
  let driveSuccess := driveData.1
  let folderId := driveData.2.1
  let uploadedMedia := driveData.2.2
  -- step 2: calendar event, only if the Drive upload succeeded
  let eventId : Option String :=
    if driveSuccess && strTruthy folderId then
      match calendarResult with
      | Except.ok e => e
      | Except.error _ => none
    else none
  -- step 3: persist; fallback ids are synthesized from post type and time
  match dbResult with
  | Except.error msg =>
    Except.error ("Scheduling failed: Failed to save to database: " ++ msg)
  | Except.ok _ =>
    let finalFolderId :=
      pyOrString folderId ("no_drive_" ++ postType ++ "_" ++ timeslug scheduledTime)
    let finalEventId :=
      pyOrString eventId ("no_calendar_" ++ postType ++ "_" ++ timeslug scheduledTime)
    let finalMedia := match uploadedMedia with | some m => m | none => []
    Except.ok
      (some ⟨postType, caption, scheduledTime, finalFolderId, finalEventId,
              finalMedia, "scheduled"⟩,
        ⟨"Post scheduled successfully. Webhook will be triggered at the scheduled time.",
          folderId, eventId, false, "Pending - will be sent at scheduled time"⟩)

/-! ### Media resolution (`app/services/publisher_service.py`) -/

/-- A media entry dict as stored in the DB; `get` on absent keys yields
`none`. -/
structure MediaEntry where
  r2Url : Option String
  url : Option String
  uploadedFileId : Option String
  requestedPath : Option String
deriving DecidableEq, Repr

/-- Python `a or b` on two optional strings. -/
def pyOrOpt (a b : Option String) : Option String :=
  match a with
  | some v => if v = "" then b else some v
  | none => b

/-- `s.startswith(('http://', 'https://'))` (expressed on the character
lists). -/
def isHttpUrl (s : String) : Bool :=
  "http://".data.isPrefixOf s.data || "https://".data.isPrefixOf s.data

/-- `urlparse(u).path.split('/')[-1]`: the last path component, with query
and fragment stripped. -/
def urlFileName (u : String) : String :=
  let noFrag := (u.splitOn "#").headD u
  let noQuery := (noFrag.splitOn "?").headD noFrag
  ((noQuery.splitOn "/").getLast?).getD ""

/-- `req.split('/')[-1] or req.split('\\')[-1]` for local paths. -/
def localFileName (p : String) : String :=
  let a := ((p.splitOn "/").getLast?).getD ""
  if a = "" then ((p.splitOn "\\").getLast?).getD "" else a

/-- Outcomes of the four external fetch capabilities used by
`get_media_bytes`; `none` models a raised exception (caught by the
enclosing `try/except: pass`).  Bytes are modelled as strings. -/
structure MediaSources where
  r2Fetch : String → Option String
  driveFetch : String → Option (String × String × String)
  httpFetch : String → Option (String × Option String)
  localRead : String → Option String

/-- The dict returned by `get_media_bytes`. -/
structure MediaBytes where
  bytes : String
  fileName : String
  mimeType : Option String
  source : String
deriving DecidableEq, Repr

/-- `publisher_service.get_media_bytes`: attempts, in order, the R2 URL,
the Drive file id, the requested path as an HTTP URL, and the requested
path as a local file; raises `RuntimeError` when every source fails. -/
def get_media_bytes (entry : MediaEntry) (env : MediaSources) :
    Except String MediaBytes :=
  -- 1. Prefer R2
  let r2u := pyOrOpt entry.r2Url entry.url
  let step1 : Option MediaBytes :=
    match r2u with
    | some u =>
      if isHttpUrl u then
        match env.r2Fetch u with
        | some data => some ⟨data, urlFileName u, none, "r2"⟩
        | none => none
      else none
    | none => none
  match step1 with
  | some r => Except.ok r
  | none =>
    -- 2. Drive file id
    let step2 : Option MediaBytes :=
      match entry.uploadedFileId with
      | some did =>
        if did = "" then none
        else
          match env.driveFetch did with
          | some (b, fn, mt) => some ⟨b, fn, some mt, "drive"⟩
          | none => none
      | none => none
    match step2 with
    | some r => Except.ok r
    | none =>
      let req := pyOrOpt entry.requestedPath entry.url
      -- 3. requested path as an HTTP URL
      let step3 : Option MediaBytes :=
        match req with
        | some u =>
          if isHttpUrl u then
            match env.httpFetch u with
            | some (content, ctype) =>
              some ⟨content,
                (let f := urlFileName u; if f = "" then "file" else f), ctype, "http"⟩
            | none => none
          else none
        | none => none
      match step3 with
      | some r => Except.ok r
      | none =>
        -- 4. requested path as a local file
        let step4 : Option MediaBytes :=
          match req with
          | some p =>
            if p = "" then none
            else if isHttpUrl p then none
            else
              match env.localRead p with
              | some data => some ⟨data, localFileName p, none, "local"⟩
              | none => none
          | none => none
        match step4 with
        | some r => Except.ok r
        | none => Except.error "No available source found for media entry"

/-! ### Webhook verification (`app/routes/instagram_webhook.py`) -/

/-- `instagram_webhook.verify_webhook`: returns the challenge when
`hub.mode == "subscribe"` and the token matches the configured secret,
otherwise raises `HTTPException(403)`. -/
def verify_webhook (hubMode hubChallenge hubVerifyToken verifyTokenSecret : String) :
    Except Nat String :=
  if hubMode = "subscribe" ∧ hubVerifyToken = verifyTokenSecret then
    Except.ok hubChallenge
  else
    Except.error 403

/-! ### Folder deletion and the cleanup job
(`google_drive.delete_drive_folder`, `cleanup_service.check_and_delete_posts`) -/

/-- Outcome of the Drive `files().delete(...).execute()` call (plus the
credential/service construction before it): success, an `HttpError` with
its status, or a non-`HttpError` failure. -/
inductive DriveDeleteOutcome where
  | ok
  | httpError (status : Nat)
  | otherError
deriving DecidableEq, Repr

/-- `google_drive.delete_drive_folder`: every `HttpError` — the 404
already-deleted case and any other status — is caught and logged, never
re-raised; only non-`HttpError` failures propagate. -/
def delete_drive_folder (outcome : DriveDeleteOutcome) : Except Unit Unit :=
  match outcome with
  | DriveDeleteOutcome.ok => Except.ok ()
  | DriveDeleteOutcome.httpError _ => Except.ok ()
  | DriveDeleteOutcome.otherError => Except.error ()

/-- The per-post loop of `cleanup_service.check_and_delete_posts`: for
each post (paired with its folder-deletion outcome), try to delete the
folder and set the status to `'deleted'`; a raised exception is caught and
counted, leaving the status unchanged.  Returns the status updates
performed, `deleted_count` and `error_count`. -/
def check_and_delete_posts :
    List (Nat × DriveDeleteOutcome) → List (Nat × String) × Nat × Nat
  | [] => ([], 0, 0)
  | p :: rest =>
    match delete_drive_folder p.2 with
    | Except.ok _ =>
      let r := check_and_delete_posts rest
      ((p.1, "deleted") :: r.1, r.2.1 + 1, r.2.2)
    | Except.error _ =>
      let r := check_and_delete_posts rest
      (r.1, r.2.1, r.2.2 + 1)

theorem mem_find_posts_to_trigger {db : List PostRow} {now : Int} {p : PostRow} :
    p ∈ find_posts_to_trigger db now ↔
      p ∈ db ∧ p.status = "scheduled" ∧ now - 60 ≤ p.scheduledTime ∧ p.scheduledTime ≤ now := by
  unfold find_posts_to_trigger
  rw [List.mem_insertionSort, List.mem_filter]
  simp only [Bool.and_eq_true, decide_eq_true_eq, beq_iff_eq]
  tauto

theorem mem_update_post_status {db : List PostRow} {postId : Nat} {st : String}
    {q : PostRow} (hq : q ∈ update_post_status db postId st) (hid : q.id = postId) :
    q.status = st := by
  unfold update_post_status at hq
  rcases List.mem_map.mp hq with ⟨r, _, hr⟩
  by_cases h : r.id = postId
  · simp only [h, if_pos] at hr
    exact hr ▸ rfl
  · simp only [h, if_neg, ite_false] at hr
    exact absurd (hr ▸ hid) h

theorem apply_publishes_keeps_triggered {publishOk : Nat → Bool} {postId : Nat} :
    ∀ (sel db : List PostRow),
      (∀ q ∈ db, q.id = postId → q.status = "triggered") →
      ∀ q ∈ apply_publishes publishOk sel db, q.id = postId → q.status = "triggered" := by
  intro sel
  induction sel with
  | nil => intro db h q hq; exact h q hq
  | cons a rest ih =>
    intro db h q hq hid
    refine ih _ ?_ q hq hid
    intro r hr hrid
    by_cases hp : publishOk a.id = true
    · simp only [apply_publishes, hp, if_pos] at hr ⊢
      unfold update_post_status at hr
      rcases List.mem_map.mp hr with ⟨r0, hr0, hr0e⟩
      by_cases h0 : r0.id = a.id
      · simp only [h0, if_pos] at hr0e
        exact hr0e ▸ rfl
      · simp only [h0, if_neg, ite_false] at hr0e
        cases hr0e
        exact h r hr0 hrid
    · simp only [Bool.not_eq_true] at hp
      simp only [hp, Bool.false_eq_true, if_neg, ite_false] at hr
      exact h r hr hrid

theorem apply_publishes_marks {publishOk : Nat → Bool} {p : PostRow}
    (hpub : publishOk p.id = true) :
    ∀ (sel db : List PostRow), p ∈ sel →
      ∀ q ∈ apply_publishes publishOk sel db, q.id = p.id → q.status = "triggered" := by
  intro sel
  induction sel with
  | nil => intro db h; exact absurd h (List.not_mem_nil p)
  | cons a rest ih =>
    intro db hmem q hq hid
    rcases List.mem_cons.mp hmem with hpa | hprest
    · subst hpa
      simp only [apply_publishes, hpub, if_pos] at hq
      refine apply_publishes_keeps_triggered _ _ ?_ q hq hid
      intro r hr hrid
      exact mem_update_post_status hr hrid
    · exact ih _ hprest q hq hid

/-- C1: Exactly-once triggering — `find_posts_to_trigger` selects only rows
with status `'scheduled'`, and a post whose status a successful publish in a
`check_and_trigger_posts` pass set to `'triggered'` is never selected by any
later pass, so triggering a post twice in sequence never publishes twice. -/
theorem trigger_exactly_once (db : List PostRow) (now now2 : Int)
    (publishOk : Nat → Bool) (p q : PostRow)
    (hp : p ∈ find_posts_to_trigger db now) (hpub : publishOk p.id = true)
    (hq : q ∈ find_posts_to_trigger (check_and_trigger_posts db now publishOk) now2) :
    q.id ≠ p.id := by
  intro hid
  have hsched := (mem_find_posts_to_trigger.mp hq).2.1
  have htrig : q.status = "triggered" :=
    apply_publishes_marks hpub (find_posts_to_trigger db now) db hp q
      (mem_find_posts_to_trigger.mp hq).1 hid
  rw [hsched] at htrig
  exact absurd htrig (by decide)

/-- C1 witness: with two due posts of which only post 1 publishes
successfully, the post still selected by the second pass is not post 1. -/
theorem trigger_exactly_once_witness : (2 : Nat) ≠ 1 :=
  trigger_exactly_once
    [⟨1, 100, "scheduled"⟩, ⟨2, 100, "scheduled"⟩] 100 100 (fun i => i == 1)
    ⟨1, 100, "scheduled"⟩ ⟨2, 100, "scheduled"⟩ (by decide) (by decide) (by decide)

/-- C2 counterexample: a post with status `'scheduled'` and
`scheduledTime <= now` that is older than the one-minute window is NOT
selected by `find_posts_to_trigger`, refuting the claim that every due
scheduled post is selected. -/
theorem trigger_window_misses_overdue_post :
    (⟨1, 0, "scheduled"⟩ : PostRow).status = "scheduled" ∧
    (⟨1, 0, "scheduled"⟩ : PostRow).scheduledTime ≤ 1000 ∧
    (⟨1, 0, "scheduled"⟩ : PostRow) ∈ [(⟨1, 0, "scheduled"⟩ : PostRow)] ∧
    (⟨1, 0, "scheduled"⟩ : PostRow) ∉ find_posts_to_trigger [⟨1, 0, "scheduled"⟩] 1000 := by
  refine ⟨rfl, by decide, by decide, ?_⟩
  decide

/-- C2 amended: `find_posts_to_trigger` selects exactly the posts with
status `'scheduled'` and `now - 1 minute <= scheduledTime <= now` (not all
past-due posts), ordered ascending by `scheduledTime`. -/
theorem trigger_selection_window (db : List PostRow) (now : Int) :
    (∀ p : PostRow, p ∈ find_posts_to_trigger db now ↔
      p ∈ db ∧ p.status = "scheduled" ∧
        now - 60 ≤ p.scheduledTime ∧ p.scheduledTime ≤ now) ∧
    List.Sorted schedLE (find_posts_to_trigger db now) :=
  ⟨fun _ => mem_find_posts_to_trigger, List.sorted_insertionSort schedLE _⟩

/-- C9 counterexample: with `hub.mode` different from `"subscribe"`, the
verify token can equal the configured secret and the endpoint still
responds 403 instead of returning the challenge, refuting the claimed
"if and only if the token matches". -/
theorem verify_webhook_mode_counterexample :
    verify_webhook "unsubscribe" "challenge-1" "secret-token" "secret-token" =
      Except.error 403 ∧ "secret-token" = "secret-token" := by
  exact ⟨rfl, rfl⟩

/-- C9 amended: the challenge is returned iff `hub.mode = "subscribe"` AND
the verify token matches the configured secret; in every other case the
endpoint responds 403. -/
theorem verify_webhook_iff (hubMode hubChallenge hubVerifyToken secret : String) :
    (verify_webhook hubMode hubChallenge hubVerifyToken secret = Except.ok hubChallenge ↔
      hubMode = "subscribe" ∧ hubVerifyToken = secret) ∧
    (verify_webhook hubMode hubChallenge hubVerifyToken secret = Except.ok hubChallenge ∨
      verify_webhook hubMode hubChallenge hubVerifyToken secret = Except.error 403) := by
  unfold verify_webhook
  by_cases h : hubMode = "subscribe" ∧ hubVerifyToken = secret
  · simp [h]
  · simp [h]

theorem check_and_delete_posts_spec (posts : List (Nat × DriveDeleteOutcome)) :
    (check_and_delete_posts posts).1 =
      (posts.filter (fun q => q.2 != DriveDeleteOutcome.otherError)).map
        (fun q => (q.1, "deleted")) ∧
    (check_and_delete_posts posts).2.2 =
      (posts.filter (fun q => q.2 == DriveDeleteOutcome.otherError)).length := by
  induction posts with
  | nil => exact ⟨rfl, rfl⟩
  | cons p rest ih =>
    rcases p with ⟨pid, oc⟩
    cases oc <;>
      simp_all [check_and_delete_posts, delete_drive_folder, List.filter_cons]

/-- C10: `delete_drive_folder` swallows every `HttpError` (not only 404),
so a post whose folder deletion fails with a Drive API error still has its
status set to `'deleted'` by `check_and_delete_posts`, and the per-post
error counter counts exactly the non-`HttpError` failures. -/
theorem delete_folder_errors_swallowed (posts : List (Nat × DriveDeleteOutcome))
    (pid s : Nat) (hmem : (pid, DriveDeleteOutcome.httpError s) ∈ posts) :
    delete_drive_folder (DriveDeleteOutcome.httpError s) = Except.ok () ∧
    (pid, "deleted") ∈ (check_and_delete_posts posts).1 ∧
    (check_and_delete_posts posts).2.2 =
      (posts.filter (fun q => q.2 == DriveDeleteOutcome.otherError)).length := by
  refine ⟨rfl, ?_, (check_and_delete_posts_spec posts).2⟩
  rw [(check_and_delete_posts_spec posts).1]
  exact List.mem_map.mpr
    ⟨(pid, DriveDeleteOutcome.httpError s), List.mem_filter.mpr ⟨hmem, rfl⟩, rfl⟩

/-- C10 witness: a single post whose folder deletion fails with HTTP 500
is still marked `'deleted'` and not counted as an error. -/
theorem delete_folder_errors_swallowed_witness :
    delete_drive_folder (DriveDeleteOutcome.httpError 500) = Except.ok () ∧
    (7, "deleted") ∈ (check_and_delete_posts [(7, DriveDeleteOutcome.httpError 500)]).1 ∧
    (check_and_delete_posts [(7, DriveDeleteOutcome.httpError 500)]).2.2 =
      ([(7, DriveDeleteOutcome.httpError 500)].filter
        (fun q => q.2 == DriveDeleteOutcome.otherError)).length :=
  delete_folder_errors_swallowed [(7, DriveDeleteOutcome.httpError 500)] 7 500
    (by decide)

/-- C4 counterexample: when the underlying HTTP POST raises (network
error), the exception propagates out of all three publish helpers instead
of being converted to `(False, reason)` — only `resp.json()` is wrapped in
try/except inside `_post`. -/
theorem publish_raises_on_network_error :
    publish_photo true (fun _ => NetResult.raises) = Except.error () ∧
    publish_carousel true (fun _ => NetResult.raises)
      ["https://example.com/a.jpg"] = Except.error () ∧
    publish_video true (fun _ => NetResult.raises) = Except.error () :=
  ⟨rfl, rfl, rfl⟩

theorem publish_photo_total (net : Nat → NetResult)
    (hnet : ∀ k, net k ≠ NetResult.raises) :
    ∃ r, publish_photo true net = Except.ok r := by
  unfold publish_photo
  cases h0 : net 0 with
  | raises => exact absurd h0 (hnet 0)
  | resp s j t =>
    dsimp only
    cases j with
    | none => exact ⟨_, rfl⟩
    | some idOpt =>
      dsimp only
      by_cases hs : s = 200 ∨ s = 201
      · rw [if_pos hs]
        cases idOpt with
        | none => exact ⟨_, rfl⟩
        | some cid =>
          cases h1 : net 1 with
          | raises => exact absurd h1 (hnet 1)
          | resp s2 j2 t2 =>
            dsimp only
            by_cases hs2 : s2 = 200 ∨ s2 = 201
            · rw [if_pos hs2]; exact ⟨_, rfl⟩
            · rw [if_neg hs2]; exact ⟨_, rfl⟩
      · rw [if_neg hs]; exact ⟨_, rfl⟩

theorem publish_video_total (net : Nat → NetResult)
    (hnet : ∀ k, net k ≠ NetResult.raises) :
    ∃ r, publish_video true net = Except.ok r := by
  unfold publish_video
  cases h0 : net 0 with
  | raises => exact absurd h0 (hnet 0)
  | resp s j t =>
    dsimp only
    cases j with
    | none => exact ⟨_, rfl⟩
    | some idOpt =>
      dsimp only
      by_cases hs : s = 200 ∨ s = 201
      · rw [if_pos hs]
        cases idOpt with
        | none => exact ⟨_, rfl⟩
        | some cid =>
          cases h1 : net 1 with
          | raises => exact absurd h1 (hnet 1)
          | resp s2 j2 t2 =>
            dsimp only
            by_cases hs2 : s2 = 200 ∨ s2 = 201
            · rw [if_pos hs2]; exact ⟨_, rfl⟩
            · rw [if_neg hs2]; exact ⟨_, rfl⟩
      · rw [if_neg hs]; exact ⟨_, rfl⟩

theorem carousel_children_total (net : Nat → NetResult)
    (hnet : ∀ k, net k ≠ NetResult.raises) :
    ∀ (urls : List String) (k : Nat), ∃ v, carousel_children net urls k = Except.ok v := by
  intro urls
  induction urls with
  | nil => intro k; exact ⟨_, rfl⟩
  | cons u rest ih =>
    intro k
    unfold carousel_children
    cases hk : net k with
    | raises => exact absurd hk (hnet k)
    | resp s j t =>
      dsimp only
      cases j with
      | none => exact ⟨_, rfl⟩
      | some idOpt =>
        dsimp only
        by_cases hs : s = 200 ∨ s = 201
        · rw [if_pos hs]
          cases idOpt with
          | none => exact ⟨_, rfl⟩
          | some cid =>
            rcases ih (k+1) with ⟨v, hv⟩
            rw [hv]
            cases v with
            | inl r => exact ⟨_, rfl⟩
            | inr p => rcases p with ⟨ids, next⟩; exact ⟨_, rfl⟩
        · rw [if_neg hs]; exact ⟨_, rfl⟩

theorem publish_carousel_total (net : Nat → NetResult)
    (hnet : ∀ k, net k ≠ NetResult.raises) (urls : List String) :
    ∃ r, publish_carousel true net urls = Except.ok r := by
  unfold publish_carousel
  rcases carousel_children_total net hnet urls 0 with ⟨v, hv⟩
  rw [hv]
  dsimp only
  cases v with
  | inl r => exact ⟨_, rfl⟩
  | inr p =>
    rcases p with ⟨ids, k⟩
    dsimp only
    cases hk : net k with
    | raises => exact absurd hk (hnet k)
    | resp s j t =>
      dsimp only
      cases j with
      | none => exact ⟨_, rfl⟩
      | some idOpt =>
        dsimp only
        by_cases hs : s = 200 ∨ s = 201
        · rw [if_pos hs]
          cases idOpt with
          | none => exact ⟨_, rfl⟩
          | some cid =>
            cases h1 : net (k+1) with
            | raises => exact absurd h1 (hnet (k+1))
            | resp s2 j2 t2 =>
              dsimp only
              by_cases hs2 : s2 = 200 ∨ s2 = 201
              · rw [if_pos hs2]; exact ⟨_, rfl⟩
              · rw [if_neg hs2]; exact ⟨_, rfl⟩
        · rw [if_neg hs]; exact ⟨_, rfl⟩

/-- C4 amended: whenever every underlying HTTP POST returns a response
(of any status, including unparsable bodies), all three publish helpers
return a `(success, statusMessage)` pair — HTTP-level failures are
converted to `(False, reason)`; but an exception raised by the POST itself
propagates past the caller boundary (see the counterexample). -/
theorem publish_total_on_responses (net : Nat → NetResult) (urls : List String)
    (hnet : ∀ k, net k ≠ NetResult.raises) :
    (∃ r, publish_photo true net = Except.ok r) ∧
    (∃ r, publish_carousel true net urls = Except.ok r) ∧
    (∃ r, publish_video true net = Except.ok r) :=
  ⟨publish_photo_total net hnet, publish_carousel_total net hnet urls,
    publish_video_total net hnet⟩

/-- C4 witness: with every POST answering 200 and a parsed id, all three
helpers return a result pair. -/
theorem publish_total_on_responses_witness :
    (∃ r, publish_photo true
      (fun _ => NetResult.resp 200 (some (some "17")) "ok") = Except.ok r) ∧
    (∃ r, publish_carousel true
      (fun _ => NetResult.resp 200 (some (some "17")) "ok")
      ["https://example.com/a.jpg", "https://example.com/b.jpg"] = Except.ok r) ∧
    (∃ r, publish_video true
      (fun _ => NetResult.resp 200 (some (some "17")) "ok") = Except.ok r) :=
  publish_total_on_responses (fun _ => NetResult.resp 200 (some (some "17")) "ok")
    ["https://example.com/a.jpg", "https://example.com/b.jpg"]
    (fun _ h => NetResult.noConfusion h)

/-- C5 counterexample: when the Drive upload raises, the persisted record
does get synthetic folder/event references, but the HTTP response returns
the raw `folder_id`/`event_id` variables, which are `None` — the response
does NOT carry the best-effort folder/event reference; the synthetic
references go only to the database record. -/
theorem schedule_response_carries_no_folder_ref :
    schedule_post "static" "Hello" "2025-01-01T10:00:00"
        (Except.error "Drive unreachable") (Except.ok none) (Except.ok ()) =
      Except.ok
        (some ⟨"static", "Hello", "2025-01-01T10:00:00",
            "no_drive_static_2025-01-01_10-00-00",
            "no_calendar_static_2025-01-01_10-00-00", [], "scheduled"⟩,
          ⟨"Post scheduled successfully. Webhook will be triggered at the scheduled time.",
            none, none, false, "Pending - will be sent at scheduled time"⟩) := rfl

/-- C5 amended: if the archive upload fails entirely, `schedule_post` still
persists a ScheduledPost with synthetic placeholder folder/event references
derived from the post type and scheduled time, status `'scheduled'`, and
returns a `webhook_sent = false` response — but the response's
`folder_id`/`event_id` fields are null rather than carrying the synthetic
references. -/
theorem schedule_soft_fail_on_upload (postType caption scheduledTime e : String)
    (calendarResult : Except String (Option String)) :
    schedule_post postType caption scheduledTime (Except.error e) calendarResult
        (Except.ok ()) =
      Except.ok
        (some ⟨postType, caption, scheduledTime,
            "no_drive_" ++ postType ++ "_" ++ timeslug scheduledTime,
            "no_calendar_" ++ postType ++ "_" ++ timeslug scheduledTime,
            [], "scheduled"⟩,
          ⟨"Post scheduled successfully. Webhook will be triggered at the scheduled time.",
            none, none, false, "Pending - will be sent at scheduled time"⟩) := rfl

/-- C6: media resolution priority — for a MediaEntry whose `r2_url` is a
well-formed HTTP URL whose fetch succeeds, `get_media_bytes` uses the R2
source, even when a Drive file id is also set (the remaining fallbacks are
attempted only in this order when earlier steps fail, as laid out in the
definition). -/
theorem media_resolution_prefers_r2 (entry : MediaEntry) (env : MediaSources)
    (u did data : String)
    (hr2 : entry.r2Url = some u) (hurl : isHttpUrl u = true)
    (hdrive : entry.uploadedFileId = some did)
    (hfetch : env.r2Fetch u = some data) :
    get_media_bytes entry env = Except.ok ⟨data, urlFileName u, none, "r2"⟩ := by
  have hne : ¬ u = "" := by
    intro he; rw [he] at hurl; exact absurd hurl (by decide)
  simp only [get_media_bytes, pyOrOpt, hr2, if_neg hne, hurl, if_true, hfetch]

/-- C6 witness: a concrete entry with both an R2 URL and a Drive id, where
the R2 fetch succeeds, resolves from R2. -/
theorem media_resolution_prefers_r2_witness :
    get_media_bytes
        ⟨some "https://r2.example.com/pics/x.jpg", none, some "drv1", some "/tmp/x.jpg"⟩
        ⟨fun _ => some "R2BYTES", fun _ => some ("DBYTES", "x.jpg", "image/jpeg"),
          fun _ => none, fun _ => none⟩ =
      Except.ok ⟨"R2BYTES", urlFileName "https://r2.example.com/pics/x.jpg", none, "r2"⟩ :=
  media_resolution_prefers_r2
    ⟨some "https://r2.example.com/pics/x.jpg", none, some "drv1", some "/tmp/x.jpg"⟩
    ⟨fun _ => some "R2BYTES", fun _ => some ("DBYTES", "x.jpg", "image/jpeg"),
      fun _ => none, fun _ => none⟩
    "https://r2.example.com/pics/x.jpg" "drv1" "R2BYTES" rfl (by decide) rfl rfl

/-- C7 counterexample: with a missing media reference, the upload step does
delete the created folder and raise — but the scheduling route catches the
exception and proceeds: a ScheduledPost record IS persisted (with synthetic
references) and the caller receives a success response, refuting the
claimed abort of the scheduling request. -/
theorem missing_asset_still_schedules :
    (upload_files_to_drive ["img.png"] (fun _ => none) "folder-1").2 = true ∧
    (upload_files_to_drive ["img.png"] (fun _ => none) "folder-1").1 =
      Except.error "Missing media files: img.png" ∧
    schedule_post "static" "Hello" "2025-01-01T10:00:00"
        (upload_files_to_drive ["img.png"] (fun _ => none) "folder-1").1
        (Except.ok none) (Except.ok ()) =
      Except.ok
        (some ⟨"static", "Hello", "2025-01-01T10:00:00",
            "no_drive_static_2025-01-01_10-00-00",
            "no_calendar_static_2025-01-01_10-00-00", [], "scheduled"⟩,
          ⟨"Post scheduled successfully. Webhook will be triggered at the scheduled time.",
            none, none, false, "Pending - will be sent at scheduled time"⟩) :=
  ⟨rfl, rfl, rfl⟩

/-- C7 amended: if any selected media reference resolves to nothing,
`upload_files_to_drive` deletes the partially created archive folder and
raises — but this does NOT abort the scheduling request: `schedule_post`
catches the exception, persists a ScheduledPost with synthetic references
and an empty media list, and returns a success response with
`webhook_sent = false`. -/
theorem missing_asset_aborts_upload_only (selectedMedia : List String)
    (resolve : String → Option MediaMeta) (postFolderId : String)
    (postType caption scheduledTime : String)
    (calendarResult : Except String (Option String))
    (hmiss : selectedMedia.filter (fun m => (resolve m).isNone) ≠ []) :
    (upload_files_to_drive selectedMedia resolve postFolderId).2 = true ∧
    (upload_files_to_drive selectedMedia resolve postFolderId).1 =
      Except.error ("Missing media files: " ++
        String.intercalate ", " (selectedMedia.filter (fun m => (resolve m).isNone))) ∧
    schedule_post postType caption scheduledTime
        (upload_files_to_drive selectedMedia resolve postFolderId).1
        calendarResult (Except.ok ()) =
      Except.ok
        (some ⟨postType, caption, scheduledTime,
            "no_drive_" ++ postType ++ "_" ++ timeslug scheduledTime,
            "no_calendar_" ++ postType ++ "_" ++ timeslug scheduledTime,
            [], "scheduled"⟩,
          ⟨"Post scheduled successfully. Webhook will be triggered at the scheduled time.",
            none, none, false, "Pending - will be sent at scheduled time"⟩) := by
  have hempty : (selectedMedia.filter (fun m => (resolve m).isNone)).isEmpty = false := by
    cases hl : selectedMedia.filter (fun m => (resolve m).isNone) with
    | nil => exact absurd hl hmiss
    | cons a t => rfl
  have hup : upload_files_to_drive selectedMedia resolve postFolderId =
      (Except.error ("Missing media files: " ++
        String.intercalate ", " (selectedMedia.filter (fun m => (resolve m).isNone))),
        true) := by
    simp only [upload_files_to_drive, hempty]
    rfl
  refine ⟨by rw [hup], by rw [hup], ?_⟩
  rw [hup]
  rfl

/-- C7 witness: a concrete request with an unresolvable media path still
persists a record and returns success. -/
theorem missing_asset_aborts_upload_only_witness :
    (upload_files_to_drive ["x.png"] (fun _ => none) "f").2 = true ∧
    (upload_files_to_drive ["x.png"] (fun _ => none) "f").1 =
      Except.error ("Missing media files: " ++
        String.intercalate ", " (["x.png"].filter (fun m => ((fun _ => (none : Option MediaMeta)) m).isNone))) ∧
    schedule_post "video" "C7w" "2026-01-02T03:04:05"
        (upload_files_to_drive ["x.png"] (fun _ => none) "f").1
        (Except.ok (some "ev")) (Except.ok ()) =
      Except.ok
        (some ⟨"video", "C7w", "2026-01-02T03:04:05",
            "no_drive_" ++ "video" ++ "_" ++ timeslug "2026-01-02T03:04:05",
            "no_calendar_" ++ "video" ++ "_" ++ timeslug "2026-01-02T03:04:05",
            [], "scheduled"⟩,
          ⟨"Post scheduled successfully. Webhook will be triggered at the scheduled time.",
            none, none, false, "Pending - will be sent at scheduled time"⟩) :=
  missing_asset_aborts_upload_only ["x.png"] (fun _ => none) "f"
    "video" "C7w" "2026-01-02T03:04:05" (Except.ok (some "ev")) (by decide)

theorem reduce_quality_exit_all {size : ℕ → ℕ} {q : ℕ}
    (h : size q ≤ 8 * 1024 * 1024 ∨ q ≤ 40) :
    ∀ f, reduce_quality size f q = q := by
  intro f
  cases f with
  | zero => rfl
  | succ f => simp only [reduce_quality, if_pos h]

theorem reduce_quality_step_eq {size : ℕ → ℕ} {q : ℕ}
    (h : ¬(size q ≤ 8 * 1024 * 1024 ∨ q ≤ 40)) (f : ℕ) :
    reduce_quality size (f+1) q = reduce_quality size f (q * 85 / 100) := by
  simp only [reduce_quality, if_neg h]

theorem reduce_quality_fuel_mono (size : ℕ → ℕ) :
    ∀ f q,
      (size (reduce_quality size f q) ≤ 8 * 1024 * 1024 ∨ reduce_quality size f q ≤ 40) →
      ∀ g, f ≤ g → reduce_quality size g q = reduce_quality size f q := by
  intro f
  induction f with
  | zero =>
    intro q h g _
    have h0 : reduce_quality size 0 q = q := rfl
    rw [h0] at h ⊢
    exact reduce_quality_exit_all h g
  | succ f ih =>
    intro q h g hg
    by_cases hc : size q ≤ 8 * 1024 * 1024 ∨ q ≤ 40
    · rw [reduce_quality_exit_all hc, reduce_quality_exit_all hc]
    · obtain ⟨g2, rfl⟩ : ∃ g2, g = g2 + 1 := ⟨g - 1, by omega⟩
      rw [reduce_quality_step_eq hc, reduce_quality_step_eq hc]
      rw [reduce_quality_step_eq hc] at h
      exact ih _ h g2 (by omega)

theorem reduce_quality_95_floor (size : ℕ → ℕ) :
    size (reduce_quality size 6 95) ≤ 8 * 1024 * 1024 ∨ reduce_quality size 6 95 = 40 := by
  by_cases h1 : size 95 ≤ 8 * 1024 * 1024 ∨ 95 ≤ 40
  · rw [reduce_quality_exit_all h1]
    rcases h1 with h | h
    · exact Or.inl h
    · exact absurd h (by norm_num)
  · have s1 : reduce_quality size 6 95 = reduce_quality size 5 80 := by
      rw [show (6:ℕ) = 5 + 1 from rfl, reduce_quality_step_eq h1]
    rw [s1]
    by_cases h2 : size 80 ≤ 8 * 1024 * 1024 ∨ 80 ≤ 40
    · rw [reduce_quality_exit_all h2]
      rcases h2 with h | h
      · exact Or.inl h
      · exact absurd h (by norm_num)
    · have s2 : reduce_quality size 5 80 = reduce_quality size 4 68 := by
        rw [show (5:ℕ) = 4 + 1 from rfl, reduce_quality_step_eq h2]
      rw [s2]
      by_cases h3 : size 68 ≤ 8 * 1024 * 1024 ∨ 68 ≤ 40
      · rw [reduce_quality_exit_all h3]
        rcases h3 with h | h
        · exact Or.inl h
        · exact absurd h (by norm_num)
      · have s3 : reduce_quality size 4 68 = reduce_quality size 3 57 := by
          rw [show (4:ℕ) = 3 + 1 from rfl, reduce_quality_step_eq h3]
        rw [s3]
        by_cases h4 : size 57 ≤ 8 * 1024 * 1024 ∨ 57 ≤ 40
        · rw [reduce_quality_exit_all h4]
          rcases h4 with h | h
          · exact Or.inl h
          · exact absurd h (by norm_num)
        · have s4 : reduce_quality size 3 57 = reduce_quality size 2 48 := by
            rw [show (3:ℕ) = 2 + 1 from rfl, reduce_quality_step_eq h4]
          rw [s4]
          by_cases h5 : size 48 ≤ 8 * 1024 * 1024 ∨ 48 ≤ 40
          · rw [reduce_quality_exit_all h5]
            rcases h5 with h | h
            · exact Or.inl h
            · exact absurd h (by norm_num)
          · have s5 : reduce_quality size 2 48 = reduce_quality size 1 40 := by
              rw [show (2:ℕ) = 1 + 1 from rfl, reduce_quality_step_eq h5]
            rw [s5]
            rw [reduce_quality_exit_all (Or.inr (by norm_num : (40:ℕ) ≤ 40))]
            exact Or.inr rfl

/-- C8: the JPEG re-encode loop always terminates — six saves starting at
quality 95 already reach the exit condition (extra fuel does not change the
result), and on exit either the encoded size is within the 8 MiB budget or
the quality has reached the floor of exactly 40, accepting the oversized
result instead of looping. -/
theorem jpeg_loop_terminates_at_floor (size : ℕ → ℕ) (fuel : ℕ) (hfuel : 6 ≤ fuel) :
    reduce_quality size fuel 95 = reduce_quality size 6 95 ∧
    (size (reduce_quality size 6 95) ≤ 8 * 1024 * 1024 ∨
      reduce_quality size 6 95 = 40) := by
  refine ⟨reduce_quality_fuel_mono size 6 95 ?_ fuel hfuel, reduce_quality_95_floor size⟩
  rcases reduce_quality_95_floor size with h | h
  · exact Or.inl h
  · exact Or.inr (le_of_eq h)

/-- C8 witness: an encoder that always reports 9000000 bytes (above the
8 MiB budget) drives the loop down the quality chain 95, 80, 68, 57, 48 to
the floor 40. -/
theorem jpeg_loop_terminates_at_floor_witness :
    reduce_quality (fun _ => 9000000) 7 95 = reduce_quality (fun _ => 9000000) 6 95 ∧
    ((fun _ => 9000000) (reduce_quality (fun _ => 9000000) 6 95) ≤ 8 * 1024 * 1024 ∨
      reduce_quality (fun _ => 9000000) 6 95 = 40) :=
  jpeg_loop_terminates_at_floor (fun _ => 9000000) 7 (by norm_num)

theorem int_ge_of_rat {a b : ℤ} (h : (b : ℚ) - 1/2 ≤ (a : ℚ)) : b ≤ a := by
  have h2 : (b : ℚ) - 1 < a := by linarith
  have h3 : b - 1 < a := by exact_mod_cast h2
  omega

theorem int_le_of_rat {a b : ℤ} (h : (a : ℚ) ≤ (b : ℚ) + 1/2) : a ≤ b := by
  have h2 : (a : ℚ) < b + 1 := by linarith
  have h3 : a < b + 1 := by exact_mod_cast h2
  omega

theorem abs_rhe_sub_le (x : ℚ) : |(rhe x : ℚ) - x| ≤ 1/2 := by
  have hfl : ((⌊x⌋ : ℤ) : ℚ) ≤ x := Int.floor_le x
  have hfu : x < ((⌊x⌋ : ℤ) : ℚ) + 1 := Int.lt_floor_add_one x
  unfold rhe
  split_ifs with hA hB hC
  · rw [abs_le]; constructor <;> linarith
  · rw [abs_le]
    push_cast
    constructor <;> linarith
  · have hhalf : x - ⌊x⌋ = 1/2 := le_antisymm (not_lt.mp hB) (not_lt.mp hA)
    rw [abs_le]; constructor <;> linarith
  · have hhalf : x - ⌊x⌋ = 1/2 := le_antisymm (not_lt.mp hB) (not_lt.mp hA)
    rw [abs_le]
    push_cast
    constructor <;> linarith

theorem crop_to_bounds_post (w1 h1 w2 h2 : ℕ)
    (hwl : 320 ≤ w1) (hwu : w1 ≤ 1440) (hh : 1 ≤ h1)
    (heq : crop_to_bounds w1 h1 = (w2, h2)) :
    0 < w2 ∧ 0 < h2 ∧ w2 ≤ 1440 ∧
    (320 ≤ w2 ∨ |(w2 : ℚ) - (191/100) * (h2 : ℚ)| ≤ 1/2) ∧
    (∃ r : ℚ, 4/5 ≤ r ∧ r ≤ 191/100 ∧ |(w2 : ℚ) - r * (h2 : ℚ)| ≤ 1) := by
  have hh0 : (0:ℚ) < (h1:ℚ) := by exact_mod_cast (by omega : 0 < h1)
  have hwlq : (320:ℚ) ≤ (w1:ℚ) := by exact_mod_cast hwl
  have hwuq : (w1:ℚ) ≤ 1440 := by exact_mod_cast hwu
  have hh1q : (1:ℚ) ≤ (h1:ℚ) := by exact_mod_cast hh
  unfold crop_to_bounds at heq
  split_ifs at heq with hout hth
  · -- vertical crop
    rcases hout with hlow | hhigh
    · -- ratio below 4/5: target ratio is 4/5
      have hT : max (4/5 : ℚ) (min (191/100 : ℚ) ((w1:ℚ)/(h1:ℚ))) = 4/5 := by
        rw [min_eq_right (le_of_lt (lt_trans hlow (by norm_num)))]
        exact max_eq_left (le_of_lt hlow)
      rw [hT] at heq
      injection heq with hw2 hh2
      subst hw2; subst hh2
      set x : ℚ := (w1:ℚ) / (4/5) with hxdef
      have hb := abs_le.mp (abs_rhe_sub_le x)
      have hxval : (4/5 : ℚ) * x = (w1:ℚ) := by rw [hxdef]; ring
      have h400 : (400 : ℤ) ≤ rhe x := by
        apply int_ge_of_rat
        push_cast
        linarith [hb.1]
      have hcast : (((rhe x).toNat : ℕ) : ℚ) = ((rhe x : ℤ) : ℚ) := by
        exact_mod_cast Int.toNat_of_nonneg (by omega : (0:ℤ) ≤ rhe x)
      refine ⟨by omega, by omega, by omega, Or.inl hwl,
        ⟨4/5, le_refl _, by norm_num, ?_⟩⟩
      rw [abs_le, hcast]
      constructor <;> linarith [hb.1, hb.2]
    · -- ratio above 1.91, vertical branch: the crop is a no-op
      have hT : max (4/5 : ℚ) (min (191/100 : ℚ) ((w1:ℚ)/(h1:ℚ))) = 191/100 := by
        rw [min_eq_left (le_of_lt hhigh)]
        exact max_eq_right (by norm_num)
      rw [hT] at heq hth
      injection heq with hw2 hh2
      subst hw2; subst hh2
      set x : ℚ := (w1:ℚ) / (191/100) with hxdef
      have hb := abs_le.mp (abs_rhe_sub_le x)
      have hxval : (191/100 : ℚ) * x = (w1:ℚ) := by rw [hxdef]; ring
      have hgt : (191/100:ℚ) * (h1:ℚ) < (w1:ℚ) := by
        have := (lt_div_iff hh0).mp hhigh
        linarith
      have hh1x : (h1:ℚ) < x := by
        rw [hxdef, lt_div_iff (by norm_num : (0:ℚ) < 191/100)]
        linarith
      have hgeh : ((h1:ℕ):ℤ) ≤ rhe x := by
        apply int_ge_of_rat
        push_cast
        linarith [hb.1]
      have hle : rhe x ≤ ((h1:ℕ):ℤ) := by omega
      have heqh : rhe x = ((h1:ℕ):ℤ) := le_antisymm hle hgeh
      have htn : (rhe x).toNat = h1 := by omega
      rw [htn]
      have hxcast : ((rhe x : ℤ) : ℚ) = (h1:ℚ) := by exact_mod_cast heqh
      refine ⟨by omega, by omega, by omega, Or.inl hwl,
        ⟨191/100, by norm_num, le_refl _, ?_⟩⟩
      rw [abs_le]
      constructor
      · linarith
      · linarith [hb.1]
  · -- horizontal crop
    rcases hout with hlow | hhigh
    · -- impossible: a too-narrow image always fits the vertical crop
      exfalso
      have hT : max (4/5 : ℚ) (min (191/100 : ℚ) ((w1:ℚ)/(h1:ℚ))) = 4/5 := by
        rw [min_eq_right (le_of_lt (lt_trans hlow (by norm_num)))]
        exact max_eq_left (le_of_lt hlow)
      rw [hT] at hth
      apply hth
      set x : ℚ := (w1:ℚ) / (4/5) with hxdef
      have hb := abs_le.mp (abs_rhe_sub_le x)
      have hxval : (4/5 : ℚ) * x = (w1:ℚ) := by rw [hxdef]; ring
      have hlt : (w1:ℚ) < (4/5) * (h1:ℚ) := by
        have := (div_lt_iff hh0).mp hlow
        linarith
      have hxh : x < (h1:ℚ) := by linarith
      have hlex : rhe x ≤ ((h1:ℕ):ℤ) := by
        apply int_le_of_rat
        push_cast
        linarith [hb.2]
      exact Int.toNat_le.mpr hlex
    · -- genuine horizontal crop: width becomes round(1.91 * height)
      have hT : max (4/5 : ℚ) (min (191/100 : ℚ) ((w1:ℚ)/(h1:ℚ))) = 191/100 := by
        rw [min_eq_left (le_of_lt hhigh)]
        exact max_eq_right (by norm_num)
      rw [hT] at heq hth
      injection heq with hw2 hh2
      subst hw2; subst hh2
      set y : ℚ := (h1:ℚ) * (191/100) with hydef
      have hb := abs_le.mp (abs_rhe_sub_le y)
      have hgt : (191/100:ℚ) * (h1:ℚ) < (w1:ℚ) := by
        have := (lt_div_iff hh0).mp hhigh
        linarith
      have hylt : y < (w1:ℚ) := by rw [hydef]; linarith
      have hyge : (191/100:ℚ) ≤ y := by rw [hydef]; linarith
      have hwle : rhe y ≤ ((w1:ℕ):ℤ) := by
        apply int_le_of_rat
        push_cast
        linarith [hb.2]
      have hwge : (1:ℤ) ≤ rhe y := by
        apply int_ge_of_rat
        push_cast
        linarith [hb.1]
      have hcast : (((rhe y).toNat : ℕ) : ℚ) = ((rhe y : ℤ) : ℚ) := by
        exact_mod_cast Int.toNat_of_nonneg (by omega : (0:ℤ) ≤ rhe y)
      refine ⟨by omega, by omega, by omega, Or.inr ?_,
        ⟨191/100, by norm_num, le_refl _, ?_⟩⟩
      · rw [abs_le, hcast]
        constructor <;> linarith [hb.1, hb.2]
      · rw [abs_le, hcast]
        constructor <;> linarith [hb.1, hb.2]
  · -- aspect ratio already within bounds: no crop
    push_neg at hout
    injection heq with hw2 hh2
    subst hw2; subst hh2
    refine ⟨by omega, by omega, hwu, Or.inl hwl,
      ⟨(w1:ℚ)/(h1:ℚ), hout.1, hout.2, ?_⟩⟩
    have hcancel : (w1:ℚ)/(h1:ℚ) * (h1:ℚ) = (w1:ℚ) :=
      div_mul_cancel₀ _ (ne_of_gt hh0)
    rw [hcancel]
    simp

theorem geom_normalize_post (w h w2 h2 : ℕ) (hw : 1 ≤ w) (hh : 1 ≤ h)
    (hres : geom_normalize w h = some (w2, h2)) :
    0 < w2 ∧ 0 < h2 ∧ w2 ≤ 1440 ∧
    (320 ≤ w2 ∨ |(w2 : ℚ) - (191/100) * (h2 : ℚ)| ≤ 1/2) ∧
    (∃ r : ℚ, 4/5 ≤ r ∧ r ≤ 191/100 ∧ |(w2 : ℚ) - r * (h2 : ℚ)| ≤ 1) := by
  have hh0 : ¬ h = 0 := by omega
  unfold geom_normalize at hres
  rw [if_neg hh0] at hres
  by_cases h320 : w < 320
  · rw [if_pos h320] at hres
    have hhq : (0:ℚ) < (h:ℚ) := by exact_mod_cast (by omega : 0 < h)
    have hwq : (0:ℚ) < (w:ℚ) := by exact_mod_cast (by omega : 0 < w)
    have hx : (320:ℚ) / ((w:ℚ)/(h:ℚ)) = 320 * (h:ℚ) / (w:ℚ) := by
      field_simp
    have h1le : (1:ℤ) ≤ ⌊(320:ℚ) / ((w:ℚ)/(h:ℚ))⌋ := by
      rw [hx, Int.le_floor]
      push_cast
      rw [le_div_iff hwq]
      have hw320 : (w:ℚ) ≤ 320 := by exact_mod_cast (le_of_lt h320)
      have hh1 : (1:ℚ) ≤ (h:ℚ) := by exact_mod_cast hh
      nlinarith
    have hne : ¬ (⌊(320:ℚ) / ((w:ℚ)/(h:ℚ))⌋).toNat = 0 := by omega
    rw [if_neg hne] at hres
    injection hres with hres2
    exact crop_to_bounds_post 320 _ w2 h2 (le_refl 320) (by norm_num) (by omega) hres2
  · rw [if_neg h320] at hres
    by_cases h1440 : 1440 < w
    · rw [if_pos h1440] at hres
      by_cases hnh : (⌊(1440:ℚ) / ((w:ℚ)/(h:ℚ))⌋).toNat = 0
      · rw [if_pos hnh] at hres
        exact absurd hres (by simp)
      · rw [if_neg hnh] at hres
        injection hres with hres2
        exact crop_to_bounds_post 1440 _ w2 h2 (by norm_num) (le_refl 1440)
          (by omega) hres2
    · rw [if_neg h1440] at hres
      injection hres with hres2
      exact crop_to_bounds_post w h w2 h2 (by omega) (by omega) hh hres2

/-- C3 counterexample: a decodable 1440 x 100 image (aspect ratio 14.4)
takes the horizontal-crop branch and is normalized to 191 x 100 — an
output width of 191, outside the claimed [320, 1440] window. -/
theorem normalize_width_counterexample :
    validate_and_prepare_image 1440 100 (fun _ _ => 0) = some (191, 100, 95) ∧
    ¬ 320 ≤ 191 := by
  constructor
  · have hc : crop_to_bounds 1440 100 = (191, 100) := by
      unfold crop_to_bounds rhe
      norm_num
      rfl
    have hg : geom_normalize 1440 100 = some (191, 100) := by
      unfold geom_normalize
      norm_num [hc]
    unfold validate_and_prepare_image
    rw [hg]
    simp [reduce_quality]
  · decide

/-- C3 amended: for every decodable input on which normalization completes,
the output satisfies: width at most 1440; aspect ratio within [0.8, 1.91]
up to rounding (some clamped ratio r reproduces the width from the height
within one pixel); and either the encoded size is within 8 MiB or the
quality reached the floor 40.  The claimed lower width bound 320 holds
unless the horizontal-crop branch ran, in which case the width is
round(1.91 * height), which can fall below 320 (see the counterexample);
in that case the width is within half a pixel of 1.91 * height. -/
theorem normalize_postconditions (w h : ℕ) (jpegSize : ℕ × ℕ → ℕ → ℕ)
    (w2 h2 q : ℕ) (hw : 1 ≤ w) (hh : 1 ≤ h)
    (hres : validate_and_prepare_image w h jpegSize = some (w2, h2, q)) :
    0 < w2 ∧ 0 < h2 ∧ w2 ≤ 1440 ∧
    (320 ≤ w2 ∨ |(w2 : ℚ) - (191/100) * (h2 : ℚ)| ≤ 1/2) ∧
    (∃ r : ℚ, 4/5 ≤ r ∧ r ≤ 191/100 ∧ |(w2 : ℚ) - r * (h2 : ℚ)| ≤ 1) ∧
    (jpegSize (w2, h2) q ≤ 8 * 1024 * 1024 ∨ q = 40) := by
  unfold validate_and_prepare_image at hres
  cases hg : geom_normalize w h with
  | none => rw [hg] at hres; exact absurd hres (by simp)
  | some wh =>
    rw [hg] at hres
    rcases wh with ⟨a, b⟩
    dsimp only at hres
    injection hres with hres2
    injection hres2 with hw2 hrest
    injection hrest with hh2 hq
    subst hw2; subst hh2; subst hq
    obtain ⟨p1, p2, p3, p4, p5⟩ := geom_normalize_post w h a b hw hh hg
    exact ⟨p1, p2, p3, p4, p5, reduce_quality_95_floor (jpegSize (a, b))⟩

/-- C3 witness: a 1000 x 1000 image is already within all bounds and is
normalized unchanged at quality 95. -/
theorem normalize_postconditions_witness :
    0 < 1000 ∧ 0 < 1000 ∧ 1000 ≤ 1440 ∧
    (320 ≤ 1000 ∨ |((1000:ℕ) : ℚ) - (191/100) * ((1000:ℕ) : ℚ)| ≤ 1/2) ∧
    (∃ r : ℚ, 4/5 ≤ r ∧ r ≤ 191/100 ∧
      |((1000:ℕ) : ℚ) - r * ((1000:ℕ) : ℚ)| ≤ 1) ∧
    ((fun _ _ => 0) ((1000:ℕ), (1000:ℕ)) 95 ≤ 8 * 1024 * 1024 ∨ 95 = 40) :=
  normalize_postconditions 1000 1000 (fun _ _ => 0) 1000 1000 95
    (by norm_num) (by norm_num)
    (by
      have hc : crop_to_bounds 1000 1000 = (1000, 1000) := by
        unfold crop_to_bounds rhe
        norm_num
      have hg : geom_normalize 1000 1000 = some (1000, 1000) := by
        unfold geom_normalize
        norm_num [hc]
      unfold validate_and_prepare_image
      rw [hg]
      simp [reduce_quality])

end SocialMedia
